import Mathlib

/-!
Verification of `src/exchange_rate_update.py`, a batch job that fetches
settlement exchange-rate rows, reconciles them against an existing remote
spreadsheet, and appends only the new rows.

The embedding is shallow: pandas DataFrames become lists of rows of cells
(a cell is a value with its string form, or NaN), the remote spreadsheet
rows become lists of strings, and the effectful functions are modelled by
pure functions over an `Env` record that fixes the outcome of every
external call, returning the boolean result together with the list of
network requests issued.
-/

namespace ExchangeRateUpdate

/-- A cell of a pandas DataFrame: either a value together with its Python
string form, or the missing-value marker NaN. -/
inductive Cell where
  | str (s : String)
  | nan
  deriving DecidableEq, Repr

/-- `df[col].astype(str)` applied to one cell: pandas renders NaN as `"nan"`. -/
def Cell.astype : Cell → String
  | .str s => s
  | .nan => "nan"

/-- The conversion in `prepare_update_data`: `"" if pd.isna(value) else str(value)`. -/
def Cell.pyStr : Cell → String
  | .str s => s
  | .nan => ""

/-- A pandas DataFrame: named columns and rows of cells. -/
structure DataFrame where
  cols : List String
  rows : List (List Cell)
  deriving DecidableEq, Repr

/-- `pd.DataFrame()`. -/
def DataFrame.empty : DataFrame := ⟨[], []⟩

/-- `pat` is a leading segment of `s` (on character lists). -/
def startsWith : List Char → List Char → Bool
  | [], _ => true
  | _ :: _, [] => false
  | p :: ps, c :: cs => p == c && startsWith ps cs

/-- `pat` occurs somewhere inside `s` (on character lists). -/
def containsSub (s pat : List Char) : Bool :=
  match s with
  | [] => pat.isEmpty
  | _ :: cs => startsWith pat s || containsSub cs pat

/-- Python's `pat in s` substring test. -/
def strContains (s pat : String) : Bool := containsSub s.toList pat.toList

/-- Python's `s.lower()`, character-wise. -/
def pyLower (s : String) : String := String.mk (s.toList.map Char.toLower)

/-- The date-column heuristic of `identify_new_data`:
`'日期' in col or 'date' in col.lower()`. -/
def isDateColName (c : String) : Bool :=
  strContains c "日期" || strContains (pyLower c) "date"

/-- Index of the date column: the first column whose name matches the
heuristic, else column 0 (`date_column = df.columns[0]`). -/
def dateColIdx (cols : List String) : Nat :=
  match cols.findIdx? isDateColName with
  | some i => i
  | none => 0

/-- The date of a row as `identify_new_data` computes it:
`df[date_column].astype(str)` at this row. -/
def rowDate (cols : List String) (r : List Cell) : String :=
  (r.getD (dateColIdx cols) Cell.nan).astype

/-- `identify_new_data(df, existing_data, existing_headers)` (the header
argument is unused by the source).  Empty fetched data yields an empty
DataFrame; an empty remote table returns `df` whole; otherwise the rows of
`df` whose date string occurs among the first cells of the non-empty remote
rows are dropped, in order (`df.iloc[new_date_indices]`). -/
def identify_new_data (df : DataFrame) (existing : List (List String)) : DataFrame :=
  if df.rows.isEmpty then DataFrame.empty
  else if existing.isEmpty then df
  else
    let existing_dates := (existing.filter (fun r => !r.isEmpty)).map (fun r => r.headD "")
    let kept := df.rows.filter (fun r => !existing_dates.contains (rowDate df.cols r))
    if kept.isEmpty then DataFrame.empty
    else { cols := df.cols, rows := kept }

/-- The shared `'更新时间' not in df.columns` / `df['更新时间'] = current_time`
step of `prepare_new_data` and `prepare_update_data`: append the timestamp
column when absent. -/
def addTimestampCol (df : DataFrame) (now : String) : DataFrame :=
  if "更新时间" ∈ df.cols then df
  else { cols := df.cols ++ ["更新时间"], rows := df.rows.map (fun r => r ++ [Cell.str now]) }

/-- `prepare_new_data(df)`: add the timestamp column when absent, then sort
by the first column descending (`sort_values(by=df.columns[0], ascending=False)`). -/
def prepare_new_data (df : DataFrame) (now : String) : DataFrame :=
  if df.rows.isEmpty then DataFrame.empty
  else
    let df2 := addTimestampCol df now
    { cols := df2.cols,
      rows := df2.rows.mergeSort
        (fun a b => decide ((b.getD 0 Cell.nan).astype ≤ (a.getD 0 Cell.nan).astype)) }

/-- `prepare_update_data(new_data_df, existing_headers)` (the header argument
is unused by the source): empty input yields `[]`; otherwise add the
timestamp column when absent and stringify every cell, with NaN becoming
`""`. -/
def prepare_update_data (df : DataFrame) (now : String) : List (List String) :=
  if df.rows.isEmpty then []
  else ((addTimestampCol df now).rows).map (fun r => r.map Cell.pyStr)

/-- One network request issued by the job, in issue order. -/
inductive Call where
  | tokenReq
  | readReq
  | fetchReq
  | appendReq
  | updateReadReq
  | updatePutReq
  deriving DecidableEq, Repr

/-- Outcome of a Feishu HTTP call: the request raised, or returned a JSON
body with the given application-level `code` (0 means success). -/
inductive FResp where
  | raised
  | resp (code : Int)
  deriving DecidableEq, Repr

/-- Fixed outcomes of all external interactions of one run.  `tokenResp` is
what `get_feishu_token` returns (`none` for failure or exception),
`readValues` the `values` array of a successful range read (`none` when the
read fails or raises), `fetchResult` what `get_settlement_exchange_rate`
returns (an empty DataFrame when the provider raises or has no rows),
`now` the formatted `datetime.now()`, and the remaining fields the
responses of the append call and of the two calls inside the update
fallback. -/
structure Env where
  app_id : Option String
  app_secret : Option String
  table_token : Option String
  sheet_id : Option String
  tokenResp : Option String
  readValues : Option (List (List String))
  fetchResult : DataFrame
  now : String
  appendResp : FResp
  updateReadResp : Option (List (List String))
  updatePutResp : FResp

/-- Python truthiness of an optional string: `None` and `""` are falsy. -/
def optTruthy : Option String → Bool
  | none => false
  | some s => !(s == "")

/-- Python f-string rendering of an optional global (`None` prints as "None"). -/
def optStr : Option String → String
  | some s => s
  | none => "None"

/-- `all([APP_ID, APP_SECRET, TABLE_TOKEN, SHEET_ID])`. -/
def configPresent (env : Env) : Bool :=
  optTruthy env.app_id && optTruthy env.app_secret &&
    optTruthy env.table_token && optTruthy env.sheet_id

/-- `read_existing_feishu_data(token)`: on failure or when the range holds
at most the header row, return `([], [])`; otherwise split off the header. -/
def read_existing_feishu_data (env : Env) : List (List String) × List String :=
  match env.readValues with
  | none => ([], [])
  | some values =>
    if values.length ≤ 1 then ([], [])
    else (values.tail, values.headD [])

/-- Result of a write routine: the returned boolean, the network requests
issued, and the range string of the PUT when one was sent. -/
structure WriteResult where
  ok : Bool
  calls : List Call
  putRange : Option String
  deriving DecidableEq, Repr

/-- `chr(65 + col_count - 1) if col_count <= 26 else 'Z'`. -/
def endColChar (col_count : Nat) : Char :=
  if col_count ≤ 26 then Char.ofNat (65 + col_count - 1) else 'Z'

/-- `update_to_feishu(feishu_data, token)`: read the current row count
(1 when the read returns no values), compute the range
`SHEET_ID!A{start}:{endCol}{end}` immediately after the last row, and PUT
the rows there; `False` when the read fails/raises or the PUT is not
code 0. -/
def update_to_feishu (feishu_data : List (List String)) (env : Env) : WriteResult :=
  match env.updateReadResp with
  | none => ⟨false, [.updateReadReq], none⟩
  | some values =>
    let current_row_count := if values.isEmpty then 1 else values.length
    let start_row := current_row_count + 1
    let end_row := start_row + feishu_data.length - 1
    let col_count := if feishu_data.isEmpty then 1 else (feishu_data.headD []).length
    let range_str := optStr env.sheet_id ++ "!A" ++ toString start_row ++ ":" ++
      String.singleton (endColChar col_count) ++ toString end_row
    match env.updatePutResp with
    | .raised => ⟨false, [.updateReadReq, .updatePutReq], some range_str⟩
    | .resp c => ⟨c == 0, [.updateReadReq, .updatePutReq], some range_str⟩

/-- `append_to_feishu(feishu_data, token)`: empty input returns `True`
without any request; a code-0 response returns `True`; a non-zero code
falls back to `update_to_feishu`; a raised exception returns `False`
directly (no fallback). -/
def append_to_feishu (feishu_data : List (List String)) (env : Env) : WriteResult :=
  if feishu_data.isEmpty then ⟨true, [], none⟩
  else
    match env.appendResp with
    | .raised => ⟨false, [.appendReq], none⟩
    | .resp c =>
      if c == 0 then ⟨true, [.appendReq], none⟩
      else
        let w := update_to_feishu feishu_data env
        ⟨w.ok, .appendReq :: w.calls, w.putRange⟩

/-- `incremental_update()`: config check, token, read existing, fetch,
prepare, reconcile, format, append.  Returns the boolean result and the
network requests issued, in order. -/
def incremental_update (env : Env) : Bool × List Call :=
  if !configPresent env then (false, [])
  else
    match env.tokenResp with
    | none => (false, [.tokenReq])
    | some token =>
      if token == "" then (false, [.tokenReq])
      else
        let existing := (read_existing_feishu_data env).1
        let df := env.fetchResult
        if df.rows.isEmpty then (false, [.tokenReq, .readReq, .fetchReq])
        else
          let prepared := prepare_new_data df env.now
          if prepared.rows.isEmpty then (false, [.tokenReq, .readReq, .fetchReq])
          else
            let new_data := identify_new_data prepared existing
            if new_data.rows.isEmpty then (true, [.tokenReq, .readReq, .fetchReq])
            else
              let feishu_data := prepare_update_data new_data env.now
              if feishu_data.isEmpty then (false, [.tokenReq, .readReq, .fetchReq])
              else
                let w := append_to_feishu feishu_data env
                (w.ok, [Call.tokenReq, Call.readReq, Call.fetchReq] ++ w.calls)

/-- `__main__`: `sys.exit(0)` when `incremental_update()` returns `True`,
else `sys.exit(1)`. -/
def mainExitCode (env : Env) : Nat :=
  if (incremental_update env).1 then 0 else 1

/-- Modelled from the spec: the Merger component (section 4.2) is absent
from the source under `src/` — the code fetches only the settlement
dataset and never merges a reference dataset.  A row of one fetched
dataset: a date key plus the remaining cells. -/
structure SRow where
  date : String
  cells : List String
  deriving DecidableEq, Repr

/-- Modelled from the spec: a merged row, additionally tagged with the
origin table that produced it. -/
structure MRow where
  date : String
  cells : List String
  origin : String
  deriving DecidableEq, Repr

/-- Modelled from the spec: tag every row of a dataset with its origin. -/
def tagRows (origin : String) (rs : List SRow) : List MRow :=
  rs.map (fun r => ⟨r.date, r.cells, origin⟩)

/-- Modelled from the spec (section 4.2, absent from the source): both empty
→ empty; exactly one non-empty → that one, tagged with its origin; both
non-empty → all settlement rows plus the reference rows whose date is
absent from settlement, sorted by date descending. -/
def merge (settlement reference : List SRow) : List MRow :=
  if settlement.isEmpty && reference.isEmpty then []
  else if reference.isEmpty then tagRows "settlement" settlement
  else if settlement.isEmpty then tagRows "reference" reference
  else
    let kept := reference.filter (fun r => !(settlement.any (fun s => s.date == r.date)))
    (tagRows "settlement" settlement ++ tagRows "reference" kept).mergeSort
      (fun a b => decide (b.date ≤ a.date))

/-- A sample environment whose provider fetch yields no rows (covering both
"provider raises" and "provider returns empty"), all other calls healthy. -/
def envFetchEmpty : Env :=
  ⟨some "app", some "secret", some "tok", some "sh", some "tenattoken",
   some [["日期", "rate"], ["2024-01-02", "7.1"]], DataFrame.empty,
   "2024-01-05 00:00:00", .resp 0, some [["日期"]], .resp 0⟩

/-- A sample environment whose append request raises an exception. -/
def envAppendRaises : Env :=
  ⟨some "app", some "secret", some "tok", some "sh", some "tenattoken",
   some [["日期", "rate"], ["2024-01-02", "7.1"]],
   ⟨["日期", "rate"], [[Cell.str "2024-01-03", Cell.str "7.2"]]⟩,
   "2024-01-05 00:00:00", .raised, some [["日期"]], .resp 0⟩

/-- A sample environment whose append request returns a non-zero code and
whose update fallback succeeds. -/
def envAppendFails : Env :=
  ⟨some "app", some "secret", some "tok", some "sh", some "tenattoken",
   some [["日期", "rate"], ["2024-01-02", "7.1"]],
   ⟨["日期", "rate"], [[Cell.str "2024-01-03", Cell.str "7.2"]]⟩,
   "2024-01-05 00:00:00", .resp 91403, some [["日期"], ["2024-01-02"]], .resp 0⟩

/-- A sample environment with one required configuration value missing. -/
def envNoConfig : Env :=
  ⟨none, some "secret", some "tok", some "sh", some "tenattoken",
   some [["日期", "rate"], ["2024-01-02", "7.1"]],
   ⟨["日期", "rate"], [[Cell.str "2024-01-03", Cell.str "7.2"]]⟩,
   "2024-01-05 00:00:00", .resp 0, some [["日期"]], .resp 0⟩

/-- A sample fetched DataFrame for the reconciliation witnesses. -/
def dfSample : DataFrame :=
  ⟨["日期", "rate"],
   [[Cell.str "2024-01-01", Cell.str "7.1"], [Cell.str "2024-01-02", Cell.nan]]⟩

/-- Sample existing remote rows for the reconciliation witnesses. -/
def existingSample : List (List String) := [["2024-01-02", "7.0", "x"]]

/-- Sample settlement dataset for the merge witness. -/
def mergeSettleSample : List SRow := [⟨"2024-01-02", ["7.1"]⟩]

/-- Sample reference dataset for the merge witness: one overlapping date,
one new date. -/
def mergeRefSample : List SRow := [⟨"2024-01-02", ["9.0"]⟩, ⟨"2024-01-01", ["8.0"]⟩]

/-- Membership in the extracted first-cell list agrees with "is the first
cell of some row of `existing`". -/
theorem contains_existing_dates (existing : List (List String)) (d : String) :
    (((existing.filter (fun r => !r.isEmpty)).map (fun r => r.headD "")).contains d) =
      existing.any (fun e => e.head? == some d) := by
  induction existing with
  | nil => simp
  | cons e rest ih =>
    cases e with
    | nil => simpa using ih
    | cons a t =>
      simp only [List.filter_cons, List.isEmpty_cons, Bool.not_false, if_true, List.map_cons,
        List.contains_cons, List.any_cons, List.head?_cons, List.headD_cons,
        Option.some_beq_some]
      rw [ih]
      congr 1
      rcases eq_or_ne a d with rfl | hne
      · rfl
      · rw [beq_eq_false_iff_ne.mpr hne.symm, beq_eq_false_iff_ne.mpr hne]

/-- The rows returned by `identify_new_data` are exactly the rows of `df`
whose date string is not the first cell of any row of `existing`. -/
theorem identify_new_data_rows (df : DataFrame) (existing : List (List String)) :
    (identify_new_data df existing).rows =
      df.rows.filter (fun r => !(existing.any (fun e => e.head? == some (rowDate df.cols r)))) := by
  unfold identify_new_data
  by_cases hdf : df.rows.isEmpty
  · rw [List.isEmpty_iff] at hdf
    simp [hdf, DataFrame.empty]
  · simp only [hdf, if_false]
    by_cases hex : existing.isEmpty
    · rw [List.isEmpty_iff] at hex
      simp [hex]
    · simp only [hex, if_false]
      have hfeq : (df.rows.filter (fun r =>
          !(((existing.filter (fun r => !r.isEmpty)).map (fun r => r.headD "")).contains
            (rowDate df.cols r)))) =
          df.rows.filter (fun r =>
            !(existing.any (fun e => e.head? == some (rowDate df.cols r)))) := by
        apply List.filter_congr
        intro r _
        rw [contains_existing_dates]
      rw [hfeq]
      by_cases hkept : (df.rows.filter (fun r =>
          !(existing.any (fun e => e.head? == some (rowDate df.cols r))))).isEmpty
      · rw [List.isEmpty_iff] at hkept
        simp [hkept, DataFrame.empty]
      · simp [hkept]

/-- C1: `identify_new_data` returns exactly the subsequence of rows of the
fetched DataFrame whose date string does not occur as the first cell of any
row of the existing remote data, preserving relative order; when the
existing data is empty it returns all fetched rows. -/
theorem identify_new_data_spec (df : DataFrame) (existing : List (List String)) :
    ((identify_new_data df existing).rows =
      df.rows.filter (fun r =>
        !(existing.any (fun e => e.head? == some (rowDate df.cols r))))) ∧
    (existing = [] → (identify_new_data df existing).rows = df.rows) := by
  refine ⟨identify_new_data_rows df existing, ?_⟩
  intro h
  rw [identify_new_data_rows, h]
  simp

/-- Witness for C1 at a concrete DataFrame and remote table. -/
theorem identify_new_data_spec_witness :
    ((identify_new_data dfSample existingSample).rows =
      [[Cell.str "2024-01-01", Cell.str "7.1"]]) ∧
    (identify_new_data dfSample []).rows = dfSample.rows := by
  refine ⟨?_, (identify_new_data_spec dfSample []).2 rfl⟩
  rw [(identify_new_data_spec dfSample existingSample).1]
  decide

/-- C2: a date present as the first cell of a row of the existing remote
data is never the date of any row that `identify_new_data` selects for the
append/update write, regardless of the rows' other values. -/
theorem no_existing_date_in_new_rows (df : DataFrame) (existing : List (List String))
    (e : List String) (he : e ∈ existing) (d : String) (hd : e.head? = some d) :
    ∀ r ∈ (identify_new_data df existing).rows, rowDate df.cols r ≠ d := by
  intro r hr
  rw [identify_new_data_rows] at hr
  have hp := List.of_mem_filter hr
  simp only [Bool.not_eq_true', List.any_eq_false] at hp
  have h2 := hp e he
  intro hcontra
  rw [hd, hcontra] at h2
  simp at h2

/-- Witness for C2: the remote date "2024-01-02" is not the date of the one
row selected from the sample DataFrame. -/
theorem no_existing_date_in_new_rows_witness :
    rowDate dfSample.cols [Cell.str "2024-01-01", Cell.str "7.1"] ≠ "2024-01-02" :=
  no_existing_date_in_new_rows dfSample existingSample ["2024-01-02", "7.0", "x"]
    (by decide) "2024-01-02" rfl [Cell.str "2024-01-01", Cell.str "7.1"] (by decide)

/-- C5: reconciliation is idempotent — after folding the dates of the first
result into the existing rows, a second reconciliation returns no rows. -/
theorem reconcile_idempotent (df : DataFrame) (existing : List (List String)) :
    (identify_new_data df
      (existing ++ (identify_new_data df existing).rows.map
        (fun r => [rowDate df.cols r]))).rows = [] := by
  rw [identify_new_data_rows, List.filter_eq_nil_iff]
  intro r hr hfalse
  rw [Bool.not_eq_true'] at hfalse
  rw [List.any_append] at hfalse
  rcases Bool.or_eq_false_iff.mp hfalse with ⟨h1, h2⟩
  have hmem : r ∈ (identify_new_data df existing).rows := by
    rw [identify_new_data_rows]
    refine List.mem_filter.mpr ⟨hr, ?_⟩
    rw [h1]
    rfl
  have hany : ((identify_new_data df existing).rows.map
      (fun r => [rowDate df.cols r])).any
        (fun e => e.head? == some (rowDate df.cols r)) = true := by
    refine List.any_eq_true.mpr ⟨[rowDate df.cols r], List.mem_map_of_mem _ hmem, ?_⟩
    simp
  rw [hany] at h2
  exact Bool.true_eq_false.mp h2

/-- C4: for a non-empty DataFrame without the timestamp column,
`prepare_update_data` returns one output row per input row, each of cell
count input-column-count + 1, with the timestamp appended and every cell
stringified (NaN becoming `""`). -/
theorem prepare_update_data_spec (df : DataFrame) (ts : String)
    (hrows : df.rows ≠ []) (hts : "更新时间" ∉ df.cols)
    (hwf : ∀ r ∈ df.rows, r.length = df.cols.length) :
    (prepare_update_data df ts =
      df.rows.map (fun r => (r ++ [Cell.str ts]).map Cell.pyStr)) ∧
    (prepare_update_data df ts).length = df.rows.length ∧
    ∀ w ∈ prepare_update_data df ts, w.length = df.cols.length + 1 := by
  have hie : df.rows.isEmpty = false :=
    Bool.eq_false_iff.mpr (fun hc => hrows (List.isEmpty_iff.mp hc))
  have hadd : addTimestampCol df ts =
      ⟨df.cols ++ ["更新时间"], df.rows.map (fun r => r ++ [Cell.str ts])⟩ := by
    unfold addTimestampCol
    rw [if_neg hts]
  have heq : prepare_update_data df ts =
      df.rows.map (fun r => (r ++ [Cell.str ts]).map Cell.pyStr) := by
    unfold prepare_update_data
    simp only [hie, Bool.false_eq_true, if_false, hadd, List.map_map]
    rfl
  refine ⟨heq, by rw [heq, List.length_map], ?_⟩
  intro w hw
  rw [heq] at hw
  obtain ⟨r, hr, rfl⟩ := List.mem_map.mp hw
  rw [List.length_map, List.length_append, hwf r hr]
  rfl

/-- Witness for C4 at the sample DataFrame (one NaN cell). -/
theorem prepare_update_data_spec_witness :
    prepare_update_data dfSample "2024-01-05 00:00:00" =
      [["2024-01-01", "7.1", "2024-01-05 00:00:00"],
       ["2024-01-02", "", "2024-01-05 00:00:00"]] ∧
    (prepare_update_data dfSample "2024-01-05 00:00:00").length = dfSample.rows.length := by
  have h := prepare_update_data_spec dfSample "2024-01-05 00:00:00" (by decide) (by decide)
    (by decide)
  exact ⟨by rw [h.1]; decide, h.2.1⟩

/-- C10: appending an empty row list succeeds immediately, with no network
request issued. -/
theorem append_empty_is_noop (env : Env) :
    append_to_feishu [] env = ⟨true, [], none⟩ := rfl

/-- C6 counterexample: when the append request raises an exception,
`append_to_feishu` returns `False` directly — no fallback `update_to_feishu`
request is issued, refuting the claim for the exception case. -/
theorem append_exception_no_fallback_cex :
    append_to_feishu [["2024-01-03", "7.2"]] envAppendRaises =
      ⟨false, [Call.appendReq], none⟩ ∧
    Call.updateReadReq ∉ (append_to_feishu [["2024-01-03", "7.2"]] envAppendRaises).calls ∧
    Call.updatePutReq ∉ (append_to_feishu [["2024-01-03", "7.2"]] envAppendRaises).calls := by
  decide

/-- C6 amended: for a non-empty row list, a non-zero append response code
triggers exactly one fallback `update_to_feishu` and the run fails only if
the fallback fails; a raised append exception returns `False` with no
fallback. -/
theorem append_fallback_on_error_code (fdata : List (List String)) (env : Env)
    (hne : fdata ≠ []) :
    (∀ c : Int, env.appendResp = FResp.resp c → c ≠ 0 →
      append_to_feishu fdata env =
        ⟨(update_to_feishu fdata env).ok,
         Call.appendReq :: (update_to_feishu fdata env).calls,
         (update_to_feishu fdata env).putRange⟩) ∧
    (env.appendResp = FResp.raised →
      append_to_feishu fdata env = ⟨false, [Call.appendReq], none⟩) := by
  have hie : fdata.isEmpty = false :=
    Bool.eq_false_iff.mpr (fun hc => hne (List.isEmpty_iff.mp hc))
  constructor
  · intro c hc hc0
    unfold append_to_feishu
    simp only [hie, Bool.false_eq_true, if_false, hc,
      beq_eq_false_iff_ne.mpr hc0]
  · intro hc
    unfold append_to_feishu
    simp only [hie, Bool.false_eq_true, if_false, hc]

/-- Witness for C6 at a concrete failed append (code 91403) whose fallback
succeeds: the fallback requests follow the append request. -/
theorem append_fallback_on_error_code_witness :
    (append_to_feishu [["2024-01-03", "7.2"]] envAppendFails).calls =
      Call.appendReq :: (update_to_feishu [["2024-01-03", "7.2"]] envAppendFails).calls ∧
    (append_to_feishu [["2024-01-03", "7.2"]] envAppendFails).calls =
      [Call.appendReq, Call.updateReadReq, Call.updatePutReq] := by
  refine ⟨?_, by decide⟩
  have h := (append_fallback_on_error_code [["2024-01-03", "7.2"]] envAppendFails
    (by decide)).1 91403 rfl (by decide)
  rw [h]

/-- C9: for a non-empty row list of column count ≤ 26, the update fallback
first reads the current rows (count `n`) and then PUTs to
`SHEET_ID!A{n+1}:{chr(64+c)}{n+len(rows)}`. -/
theorem update_range_spec (fdata : List (List String)) (env : Env)
    (values : List (List String)) (hne : fdata ≠ [])
    (hread : env.updateReadResp = some values) (hv : values ≠ [])
    (hc : (fdata.headD []).length ≤ 26) :
    (update_to_feishu fdata env).calls = [Call.updateReadReq, Call.updatePutReq] ∧
    (update_to_feishu fdata env).putRange =
      some (optStr env.sheet_id ++ "!A" ++ toString (values.length + 1) ++ ":" ++
        String.singleton (Char.ofNat (64 + (fdata.headD []).length)) ++
        toString (values.length + fdata.length)) := by
  have hvie : values.isEmpty = false :=
    Bool.eq_false_iff.mpr (fun hcon => hv (List.isEmpty_iff.mp hcon))
  have hfie : fdata.isEmpty = false :=
    Bool.eq_false_iff.mpr (fun hcon => hne (List.isEmpty_iff.mp hcon))
  have h1 : values.length + 1 + fdata.length - 1 = values.length + fdata.length := by
    omega
  have h2 : endColChar (fdata.headD []).length =
      Char.ofNat (64 + (fdata.headD []).length) := by
    unfold endColChar
    rw [if_pos hc]
    congr 1
    omega
  unfold update_to_feishu
  rw [hread]
  rcases hput : env.updatePutResp with _ | c <;>
    simp only [hvie, hfie, Bool.false_eq_true, if_false, hput, h1, h2] <;>
    exact ⟨trivial, trivial⟩

/-- Witness for C9: with 2 existing rows and one 3-column row to write, the
computed range is `sh!A3:C3`. -/
theorem update_range_spec_witness :
    (update_to_feishu [["2024-01-03", "7.2", "ts"]] envAppendFails).calls =
      [Call.updateReadReq, Call.updatePutReq] ∧
    (update_to_feishu [["2024-01-03", "7.2", "ts"]] envAppendFails).putRange =
      some "sh!A3:C3" := by
  have h := update_range_spec [["2024-01-03", "7.2", "ts"]] envAppendFails
    [["日期"], ["2024-01-02"]] (by decide) rfl (by decide) (by decide)
  refine ⟨h.1, ?_⟩
  rw [h.2]
  decide

/-- C7: a missing required configuration value makes `incremental_update`
return `False` with no network request issued, and the process exits 1. -/
theorem config_missing_aborts (env : Env)
    (h : env.app_id = none ∨ env.app_secret = none ∨ env.table_token = none ∨
      env.sheet_id = none) :
    incremental_update env = (false, []) ∧ mainExitCode env = 1 := by
  have hcp : configPresent env = false := by
    unfold configPresent
    rcases h with h | h | h | h <;> rw [h] <;> simp [optTruthy]
  have hrun : incremental_update env = (false, []) := by
    unfold incremental_update
    rw [hcp]
    rfl
  refine ⟨hrun, ?_⟩
  unfold mainExitCode
  rw [hrun]
  rfl

/-- Witness for C7 at a concrete environment missing `APP_ID`. -/
theorem config_missing_aborts_witness :
    incremental_update envNoConfig = (false, []) ∧ mainExitCode envNoConfig = 1 :=
  config_missing_aborts envNoConfig (Or.inl rfl)

/-- C3 counterexample: with every other call healthy but the provider fetch
empty, `incremental_update` returns `False` and the process exits 1 — not
success with zero rows as claimed. -/
theorem empty_fetch_reports_failure_cex :
    envFetchEmpty.fetchResult.rows = [] ∧
    configPresent envFetchEmpty = true ∧
    (incremental_update envFetchEmpty).1 = false ∧
    mainExitCode envFetchEmpty = 1 := by
  decide

/-- C3 amended: whenever the provider fetch raises or returns no rows (the
fetched dataset is empty), `incremental_update` returns `False` and the
process exits with code 1. -/
theorem empty_fetch_fails (env : Env) (hf : env.fetchResult.rows = []) :
    (incremental_update env).1 = false ∧ mainExitCode env = 1 := by
  have hmain : (incremental_update env).1 = false := by
    unfold incremental_update
    by_cases hcp : configPresent env = true
    · rcases ht : env.tokenResp with _ | t
      · simp [hcp, ht]
      · by_cases htok : (t == "") = true
        · simp [hcp, ht, htok]
        · rw [Bool.not_eq_true] at htok
          have hie : env.fetchResult.rows.isEmpty = true := by
            rw [hf]
            rfl
          simp [hcp, ht, htok, hie]
    · rw [Bool.not_eq_true] at hcp
      simp [hcp]
  refine ⟨hmain, ?_⟩
  unfold mainExitCode
  rw [hmain]
  rfl

/-- Witness for C3 (amended) at the sample empty-fetch environment. -/
theorem empty_fetch_fails_witness :
    (incremental_update envFetchEmpty).1 = false ∧ mainExitCode envFetchEmpty = 1 :=
  empty_fetch_fails envFetchEmpty rfl

/-- C8 (merger modelled from the spec): both inputs empty gives an empty
result; exactly one non-empty gives that dataset tagged with its origin;
both non-empty gives all settlement rows plus exactly the reference rows
whose date is absent from settlement, sorted by date descending. -/
theorem merge_spec (settlement reference : List SRow) :
    (merge [] [] = ([] : List MRow)) ∧
    (reference = [] → merge settlement reference = tagRows "settlement" settlement) ∧
    (settlement = [] → merge settlement reference = tagRows "reference" reference) ∧
    (settlement ≠ [] → reference ≠ [] →
      (merge settlement reference).Perm
        (tagRows "settlement" settlement ++
         tagRows "reference" (reference.filter
           (fun r => !(settlement.any (fun s => s.date == r.date))))) ∧
      List.Pairwise (fun a b : MRow => b.date ≤ a.date) (merge settlement reference)) := by
  refine ⟨rfl, ?_, ?_, ?_⟩
  · rintro rfl
    rcases settlement with _ | ⟨a, l⟩
    · rfl
    · rfl
  · rintro rfl
    rcases reference with _ | ⟨a, l⟩
    · rfl
    · rfl
  · intro hs hr
    have hsie : settlement.isEmpty = false :=
      Bool.eq_false_iff.mpr (fun hcon => hs (List.isEmpty_iff.mp hcon))
    have hrie : reference.isEmpty = false :=
      Bool.eq_false_iff.mpr (fun hcon => hr (List.isEmpty_iff.mp hcon))
    have hmerge : merge settlement reference =
        (tagRows "settlement" settlement ++ tagRows "reference"
          (reference.filter (fun r =>
            !(settlement.any (fun s => s.date == r.date))))).mergeSort
          (fun a b => decide (b.date ≤ a.date)) := by
      unfold merge
      simp only [hsie, hrie, Bool.false_and, Bool.false_eq_true, if_false]
    constructor
    · rw [hmerge]
      exact List.mergeSort_perm _ _
    · rw [hmerge]
      have hsorted := @List.sorted_mergeSort MRow
        (fun a b : MRow => decide (b.date ≤ a.date))
        (fun a b c hab hbc =>
          decide_eq_true (le_trans (of_decide_eq_true hbc) (of_decide_eq_true hab)))
        (fun a b => by
          show (decide (b.date ≤ a.date) || decide (a.date ≤ b.date)) = true
          rcases le_total b.date a.date with h | h
          · rw [decide_eq_true h, Bool.true_or]
          · rw [decide_eq_true h, Bool.or_true])
        (tagRows "settlement" settlement ++ tagRows "reference"
          (reference.filter (fun r =>
            !(settlement.any (fun s => s.date == r.date)))))
      exact hsorted.imp (fun h => of_decide_eq_true h)

/-- Witness for C8: the one-sided case evaluated, and the union case at
datasets with one overlapping date. -/
theorem merge_spec_witness :
    merge mergeSettleSample [] = tagRows "settlement" mergeSettleSample ∧
    (merge mergeSettleSample mergeRefSample).Perm
      (tagRows "settlement" mergeSettleSample ++
       tagRows "reference" (mergeRefSample.filter
         (fun r => !(mergeSettleSample.any (fun s => s.date == r.date))))) :=
  ⟨(merge_spec mergeSettleSample []).2.1 rfl,
   ((merge_spec mergeSettleSample mergeRefSample).2.2.2 (by decide) (by decide)).1⟩

end ExchangeRateUpdate
